import Mathlib

/-!
Shallow embedding of the solar_project sensor-ingestion pipeline.

This file embeds the core of `backend/sensors` (models.py, serializers.py,
views.py, signals.py) in Lean 4 and proves the claims of the spec about it.

Modelling conventions:
* Python floats are modelled as rationals (`ℚ`); every literal threshold in
  the source (35.0, 5.0, 80.0, 20.0, 500.0, range bounds) is exactly
  representable, so all comparisons translate faithfully.
* The Django ORM is modelled as an explicit record `DB` of rows; primary keys
  are `Nat`s; the server clock is an explicit `Nat` field of `DB`
  (`timestamp = models.DateTimeField(auto_now_add=True)` assigns it at
  insert time).
* `post_save` signal dispatch is modelled as an explicit event trace: every
  `Model.objects.create(...)` appends its insert and, for the models with a
  registered receiver (signals.py), the `group_send` calls of the receiver.
  The Django `QuerySet.bulk_create` documentedly does **not** send
  `pre_save`/`post_save`, so the bulk insert in `_check_alerts` contributes
  no publish events.
-/

namespace Solar

/-- Alert types, from `Alert.ALERT_TYPES` in models.py. -/
inductive AlertType where
  | temperature_high
  | temperature_low
  | humidity_high
  | humidity_low
  | air_quality_bad
  | uv_high
deriving DecidableEq, Repr

/-- Alert status, from `Alert.ALERT_STATUS` in models.py. -/
inductive AlertStatus where
  | active
  | resolved
  | ignored
deriving DecidableEq, Repr

/-- The `Device` model (models.py): identity, credential, active flag, owner. -/
structure Device where
  id : Nat
  name : String
  location : String
  api_key : String
  is_active : Bool
  owner : Nat
deriving DecidableEq, Repr

/-- The `UserSettings` model (models.py): per-user alert thresholds. -/
structure UserSettings where
  temp_high_threshold : ℚ
  temp_low_threshold : ℚ
  humidity_high_threshold : ℚ
  humidity_low_threshold : ℚ
  air_quality_threshold : ℚ
  email_notifications : Bool
  push_notifications : Bool
deriving DecidableEq, Repr

/-- The field defaults of `UserSettings` (models.py lines 129-141):
`UserSettings.objects.create(user=owner)` fills every non-user column from
these defaults. -/
def defaultUserSettings : UserSettings :=
  { temp_high_threshold := 35
    temp_low_threshold := 5
    humidity_high_threshold := 80
    humidity_low_threshold := 20
    air_quality_threshold := 500
    email_notifications := true
    push_notifications := true }

/-- The `Alert` model (models.py). `resolved_at = none` is the NULL default. -/
structure Alert where
  device : Nat
  alert_type : AlertType
  threshold_value : ℚ
  current_value : ℚ
  status : AlertStatus
  message : String
  created_at : Nat
  resolved_at : Option Nat
deriving DecidableEq, Repr

/-- The `SensorData` model (models.py): one persisted reading. `timestamp` is
`auto_now_add`, i.e. server-assigned at insert. -/
structure SensorDataRow where
  id : Nat
  device : Nat
  temperature : ℚ
  humidity : ℚ
  air_quality : ℚ
  uv_index : Option ℚ
  light_level : Option ℚ
  timestamp : Nat
deriving DecidableEq, Repr

/-- The inbound request body of `receive_sensor_data` (views.py).
`client_timestamp` stands for a `timestamp` key a device might send: the
field list of the serializer (serializers.py lines 25-26) does not include it,
so the pipeline never reads it. -/
structure SensorPayload where
  api_key : String
  temperature : ℚ
  humidity : ℚ
  air_quality : ℚ
  uv_index : Option ℚ
  light_level : Option ℚ
  client_timestamp : Option Nat
deriving DecidableEq, Repr

/-- The database state: device, reading, alert and settings tables, the next
reading primary key, and the server clock read by `auto_now_add`. -/
structure DB where
  devices : List Device
  sensorData : List SensorDataRow
  alerts : List Alert
  settings : List (Nat × UserSettings)
  nextSensorId : Nat
  clock : Nat
deriving DecidableEq, Repr

/-- Models `Device.objects.get(api_key=value, is_active=True)` (serializers.py
lines 31 and 39): `none` models `Device.DoesNotExist`, raised alike for an
unknown key and for a key whose device has `is_active=False`. -/
def getActiveDevice (db : DB) (key : String) : Option Device :=
  db.devices.find? (fun d => d.api_key == key && d.is_active)

/-- Models `UserSettings.objects.get(user=owner)` (serializers.py line 53). -/
def lookupSettings (db : DB) (user : Nat) : Option UserSettings :=
  (db.settings.find? (fun p => p.1 == user)).map Prod.snd

/-- The settings `_check_alerts` ends up using for `user`: the stored row if
one exists, otherwise the defaults that the `except DoesNotExist` branch
creates. -/
def effectiveSettings (db : DB) (user : Nat) : UserSettings :=
  (lookupSettings db user).getD defaultUserSettings

/-- Threshold Policy Store: the `try get / except DoesNotExist create`
block of `_check_alerts` (serializers.py lines 52-56). Returns the policy
used and the database afterwards. -/
def policyFor (db : DB) (user : Nat) : UserSettings × DB :=
  match lookupSettings db user with
  | some s => (s, db)
  | none =>
      (defaultUserSettings,
       { db with settings := db.settings ++ [(user, defaultUserSettings)] })

/-- Renders a rational the way the embedding prints observed values into
alert messages (stands in for the float rendering of a Python f-string). -/
def ratStr (q : ℚ) : String := toString q

/-- The alert list built by `_check_alerts` (serializers.py lines 58-104):
temperature if/elif, then humidity if/elif, then air-quality if, each
appending an `Alert(...)` carrying the threshold used and the observed
value. `now` is the `created_at` the insert will assign. -/
def check_alerts (s : UserSettings) (deviceId : Nat) (now : Nat)
    (temperature humidity air_quality : ℚ) : List Alert :=
  (if temperature > s.temp_high_threshold then
    [{ device := deviceId
       alert_type := .temperature_high
       threshold_value := s.temp_high_threshold
       current_value := temperature
       status := .active
       message := "고온 경고: " ++ ratStr temperature ++ "°C (임계값: "
         ++ ratStr s.temp_high_threshold ++ "°C)"
       created_at := now
       resolved_at := none }]
   else if temperature < s.temp_low_threshold then
    [{ device := deviceId
       alert_type := .temperature_low
       threshold_value := s.temp_low_threshold
       current_value := temperature
       status := .active
       message := "저온 경고: " ++ ratStr temperature ++ "°C (임계값: "
         ++ ratStr s.temp_low_threshold ++ "°C)"
       created_at := now
       resolved_at := none }]
   else [])
  ++
  (if humidity > s.humidity_high_threshold then
    [{ device := deviceId
       alert_type := .humidity_high
       threshold_value := s.humidity_high_threshold
       current_value := humidity
       status := .active
       message := "고습도 경고: " ++ ratStr humidity ++ "% (임계값: "
         ++ ratStr s.humidity_high_threshold ++ "%)"
       created_at := now
       resolved_at := none }]
   else if humidity < s.humidity_low_threshold then
    [{ device := deviceId
       alert_type := .humidity_low
       threshold_value := s.humidity_low_threshold
       current_value := humidity
       status := .active
       message := "저습도 경고: " ++ ratStr humidity ++ "% (임계값: "
         ++ ratStr s.humidity_low_threshold ++ "%)"
       created_at := now
       resolved_at := none }]
   else [])
  ++
  (if air_quality > s.air_quality_threshold then
    [{ device := deviceId
       alert_type := .air_quality_bad
       threshold_value := s.air_quality_threshold
       current_value := air_quality
       status := .active
       message := "공기질 나쁨: " ++ ratStr air_quality ++ " (임계값: "
         ++ ratStr s.air_quality_threshold ++ ")"
       created_at := now
       resolved_at := none }]
   else [])

/-- The numeric-range part of `SensorDataCreateSerializer.is_valid()`:
DRF maps the model validators of models.py lines 30-62 onto the serializer
fields (temperature [-50,100], humidity [0,100], air_quality [0,1000],
optional uv_index [0,15], optional light_level ≥ 0) and records one
field-keyed error per violated field, in field-declaration order. -/
def rangeErrors (p : SensorPayload) : List String :=
  (if p.temperature < -50 ∨ p.temperature > 100 then ["temperature"] else [])
  ++ (if p.humidity < 0 ∨ p.humidity > 100 then ["humidity"] else [])
  ++ (if p.air_quality < 0 ∨ p.air_quality > 1000 then ["air_quality"] else [])
  ++ (match p.uv_index with
      | some v => if v < 0 ∨ v > 15 then ["uv_index"] else []
      | none => [])
  ++ (match p.light_level with
      | some v => if v < 0 then ["light_level"] else []
      | none => [])

/-- All field errors of `SensorDataCreateSerializer.is_valid()`: the range
errors plus the `validate_api_key` error (serializers.py lines 28-34),
which is raised alike when the key matches no device and when it matches
an inactive one. -/
def fieldErrors (db : DB) (p : SensorPayload) : List String :=
  rangeErrors p
  ++ (if (getActiveDevice db p.api_key).isSome then [] else ["api_key"])

/-- One step of the observable behaviour of the pipeline: database writes and
channel-layer `group_send` calls. -/
inductive Op where
  | persistReading (readingId : Nat)
  | publishReadingEvent (group : String) (readingId : Nat)
  | evalAlerts (deviceId : Nat)
  | persistAlertsBulk (count : Nat)
  | publishAlertEvent (group : String)
deriving DecidableEq, Repr

/-- The `post_save` receiver `sensor_data_created` (signals.py lines 14-36):
on a freshly created reading it sends one `sensor_data_update` to the
combined sensor group of the owner. -/
def sensor_data_created (owner readingId : Nat) : List Op :=
  [.publishReadingEvent ("user_" ++ toString owner ++ "_sensors") readingId]

/-- The `post_save` receiver `alert_created` (signals.py lines 38-68): on a
freshly created (individually saved) alert it sends `alert_notification`
to the dedicated alert group of the owner and then, independently, to the
combined sensor group of the same owner. Django `bulk_create` sends no
`post_save`, so the bulk insert of the pipeline never invokes this. -/
def alert_created (owner : Nat) : List Op :=
  [.publishAlertEvent ("user_" ++ toString owner ++ "_alerts"),
   .publishAlertEvent ("user_" ++ toString owner ++ "_sensors")]

/-- The response of `receive_sensor_data` (views.py lines 197-218): 201
with `data_id`, `timestamp` and device name, or 400 with the
field-keyed errors of the serializer. -/
inductive IngestResult where
  | created (data_id : Nat) (timestamp : Nat) (deviceName : String)
  | validationError (errors : List String)
deriving DecidableEq, Repr

/-- The outcome of one call to the ingestion endpoint: the HTTP-level
result, the database afterwards, and the trace of writes and publishes in
program order. -/
structure IngestOutcome where
  result : IngestResult
  db : DB
  trace : List Op
deriving DecidableEq, Repr

/-- The ingestion pipeline `receive_sensor_data` (views.py lines 177-218)
together with `SensorDataCreateSerializer.create` and `_check_alerts`
(serializers.py lines 36-108):
1. `serializer.is_valid()` — on any field error, 400, nothing persisted;
2. `SensorData.objects.create(device=device, ...)` — inserts the reading
   with a server-assigned `auto_now_add` timestamp and fires `post_save`,
   i.e. `sensor_data_created` publishes one reading-event;
3. `_check_alerts` — loads or lazily creates the `UserSettings` of the owner,
   evaluates the thresholds, and persists any alerts with one
   `bulk_create` (which fires no `post_save`, hence no publish ops). -/
def receive_sensor_data (db : DB) (p : SensorPayload) : IngestOutcome :=
  let errs := fieldErrors db p
  if errs = [] then
    match getActiveDevice db p.api_key with
    | none =>
        -- unreachable when errs = []: validate_api_key already checked
        { result := .validationError ["api_key"], db := db, trace := [] }
    | some dev =>
        let row : SensorDataRow :=
          { id := db.nextSensorId
            device := dev.id
            temperature := p.temperature
            humidity := p.humidity
            air_quality := p.air_quality
            uv_index := p.uv_index
            light_level := p.light_level
            timestamp := db.clock }
        let db1 := { db with
          sensorData := db.sensorData ++ [row]
          nextSensorId := db.nextSensorId + 1 }
        let trace1 := Op.persistReading row.id :: sensor_data_created dev.owner row.id
        let sdb := policyFor db1 dev.owner
        let alerts := check_alerts sdb.1 dev.id sdb.2.clock
          p.temperature p.humidity p.air_quality
        let db2 := if alerts.isEmpty then sdb.2
          else { sdb.2 with alerts := sdb.2.alerts ++ alerts }
        let trace2 := Op.evalAlerts dev.id ::
          (if alerts.isEmpty then [] else [Op.persistAlertsBulk alerts.length])
        { result := .created row.id row.timestamp dev.name
          db := db2
          trace := trace1 ++ trace2 }
  else
    { result := .validationError errs, db := db, trace := [] }

/-- Models `AlertViewSet.resolve` (views.py lines 140-149): set `status` to
resolved and `resolved_at` to the current server time, save. -/
def resolve (a : Alert) (now : Nat) : Alert :=
  { a with status := .resolved, resolved_at := some now }

/-! Trace predicates over the observable ops of the pipeline. -/

def isPersistReading : Op → Bool
  | .persistReading _ => true
  | _ => false

def isPublishReading : Op → Bool
  | .publishReadingEvent _ _ => true
  | _ => false

def isEvalAlerts : Op → Bool
  | .evalAlerts _ => true
  | _ => false

def isPersistAlerts : Op → Bool
  | .persistAlertsBulk _ => true
  | _ => false

def isPublishAlert : Op → Bool
  | .publishAlertEvent _ => true
  | _ => false

/-- Rank of an alert type in the fixed emission order of the evaluator:
temperature checks first, then humidity, then air quality. -/
def metricRank : AlertType → Nat
  | .temperature_high => 0
  | .temperature_low => 0
  | .humidity_high => 1
  | .humidity_low => 1
  | .air_quality_bad => 2
  | .uv_high => 3

/-! Race model for the lazy policy creation.

`_check_alerts` runs `UserSettings.objects.get(user=owner)` and, on
`DoesNotExist`, `UserSettings.objects.create(user=owner)` (serializers.py
lines 52-56) — a check-then-act sequence, not `get_or_create`. The store
enforces the `OneToOneField` unique constraint on `user`, so a second
INSERT for the same user raises `IntegrityError`, which this code does not
catch. Each process is two atomic steps against the shared store: the
SELECT, then (only if it saw nothing) the INSERT. -/

/-- Program counter of the policy-creation fragment of one ingest. -/
inductive PC where
  | start
  | checked (found : Bool)
  | finished (integrityError : Bool)
deriving DecidableEq, Repr

/-- One step of one process: `start` runs the `get`; `checked false` runs
the `create`, which succeeds iff the row is still absent and otherwise
raises `IntegrityError` (the unique constraint on `UserSettings.user`). -/
def stepProc : Option UserSettings → PC → Option UserSettings × PC
  | store, .start => (store, .checked store.isSome)
  | store, .checked true => (store, .finished false)
  | none, .checked false => (some defaultUserSettings, .finished false)
  | some s, .checked false => (some s, .finished true)
  | store, .finished e => (store, .finished e)

/-- Shared state of the race: the (at most one, by the unique constraint)
policy row for the account, and the program counters of both processes. -/
structure RaceState where
  store : Option UserSettings
  p1 : PC
  p2 : PC
deriving DecidableEq, Repr

/-- Scheduler step: `true` advances process 1, `false` process 2. -/
def raceStep (st : RaceState) (who : Bool) : RaceState :=
  if who then
    let r := stepProc st.store st.p1
    { st with store := r.1, p1 := r.2 }
  else
    let r := stepProc st.store st.p2
    { st with store := r.1, p2 := r.2 }

/-- Run the race under a schedule (an interleaving of the two processes). -/
def raceRun (sched : List Bool) (st : RaceState) : RaceState :=
  sched.foldl raceStep st

/-! Concrete fixtures used by the witnesses and the closed theorems. -/

/-- An active registered device owned by account 7. -/
def sampleDevice : Device :=
  { id := 1, name := "dev1", location := "roof", api_key := "k",
    is_active := true, owner := 7 }

/-- A device owned by account 7 whose active flag is false: its key is
syntactically valid but must be rejected like an unknown key. -/
def deadDevice : Device :=
  { id := 2, name := "dev2", location := "wall", api_key := "dead",
    is_active := false, owner := 7 }

/-- A database with one active and one inactive device, no readings, no
alerts, and no stored policy for account 7. -/
def sampleDB : DB :=
  { devices := [sampleDevice, deadDevice]
    sensorData := []
    alerts := []
    settings := []
    nextSensorId := 10
    clock := 100 }

/-- An in-range payload whose reading breaches no default threshold. -/
def okPayload : SensorPayload :=
  { api_key := "k", temperature := 20, humidity := 50, air_quality := 100,
    uv_index := none, light_level := none, client_timestamp := none }

/-- An in-range payload that breaches the default temperature-high,
humidity-high and air-quality thresholds all at once. -/
def alertPayload : SensorPayload :=
  { api_key := "k", temperature := 36, humidity := 85, air_quality := 600,
    uv_index := none, light_level := none, client_timestamp := none }

/-- A payload with its temperature out of the declared [-50, 100] range. -/
def badPayload : SensorPayload :=
  { okPayload with temperature := 150 }

/-! Helper lemmas shared by the claim theorems. -/

/-- The policy returned by the try-get-except-create block is the stored
row when present and the defaults otherwise. -/
lemma policyFor_fst (db : DB) (u : Nat) :
    (policyFor db u).1 = effectiveSettings db u := by
  unfold policyFor effectiveSettings
  cases lookupSettings db u <;> simp

/-- Lazy policy creation writes only the settings table. -/
lemma policyFor_snd_sensorData (db : DB) (u : Nat) :
    (policyFor db u).2.sensorData = db.sensorData := by
  unfold policyFor; cases lookupSettings db u <;> simp

/-- Lazy policy creation leaves the alerts table unchanged. -/
lemma policyFor_snd_alerts (db : DB) (u : Nat) :
    (policyFor db u).2.alerts = db.alerts := by
  unfold policyFor; cases lookupSettings db u <;> simp

/-- Lazy policy creation does not advance the clock. -/
lemma policyFor_snd_clock (db : DB) (u : Nat) :
    (policyFor db u).2.clock = db.clock := by
  unfold policyFor; cases lookupSettings db u <;> simp

/-- Inserting a reading row does not change which settings row a user has. -/
lemma effectiveSettings_insertReading (db : DB) (rows : List SensorDataRow)
    (n u : Nat) :
    effectiveSettings { db with sensorData := rows, nextSensorId := n } u =
      effectiveSettings db u := rfl

/-- Shape of the observable trace of one ingest: empty on rejection,
otherwise persist-reading, publish-reading, evaluate, then only bulk alert
persists. -/
lemma receive_trace_cases (db : DB) (p : SensorPayload) :
    (receive_sensor_data db p).trace = [] ∨
    ∃ rid g d rest, (receive_sensor_data db p).trace =
        Op.persistReading rid :: Op.publishReadingEvent g rid ::
          Op.evalAlerts d :: rest
      ∧ ∀ o ∈ rest, ∃ k, o = Op.persistAlertsBulk k := by
  by_cases hE : fieldErrors db p = []
  · rcases hdev : getActiveDevice db p.api_key with - | dev
    · left; simp [receive_sensor_data, hE, hdev]
    · right
      simp only [receive_sensor_data, hE, if_true, hdev, sensor_data_created]
      refine ⟨db.nextSensorId, _, dev.id, _, rfl, ?_⟩
      intro o ho
      split at ho
      · simp at ho
      · simp at ho
        exact ⟨_, ho⟩
  · left; simp [receive_sensor_data, hE]

/-! The claims. -/

/-- Claim C1: for every reading and policy, `_check_alerts` emits
temperature_high exactly when the temperature exceeds the high threshold,
otherwise temperature_low exactly when it is below the low threshold (at
most one temperature event), analogously for humidity, and
air_quality_bad exactly when air quality exceeds its threshold; the
emitted sequence is ordered temperature, humidity, air quality, and each
event carries the policy threshold used and the observed value. -/
theorem check_alerts_spec (s : UserSettings) (d now : Nat) (t h a : ℚ) :
    ((∃ e ∈ check_alerts s d now t h a, e.alert_type = .temperature_high) ↔
       t > s.temp_high_threshold)
    ∧ ((∃ e ∈ check_alerts s d now t h a, e.alert_type = .temperature_low) ↔
       ¬ t > s.temp_high_threshold ∧ t < s.temp_low_threshold)
    ∧ ((∃ e ∈ check_alerts s d now t h a, e.alert_type = .humidity_high) ↔
       h > s.humidity_high_threshold)
    ∧ ((∃ e ∈ check_alerts s d now t h a, e.alert_type = .humidity_low) ↔
       ¬ h > s.humidity_high_threshold ∧ h < s.humidity_low_threshold)
    ∧ ((∃ e ∈ check_alerts s d now t h a, e.alert_type = .air_quality_bad) ↔
       a > s.air_quality_threshold)
    ∧ (check_alerts s d now t h a).countP (fun e => metricRank e.alert_type == 0) ≤ 1
    ∧ (check_alerts s d now t h a).countP (fun e => metricRank e.alert_type == 1) ≤ 1
    ∧ (check_alerts s d now t h a).Pairwise
        (fun x y => metricRank x.alert_type ≤ metricRank y.alert_type)
    ∧ (∀ e ∈ check_alerts s d now t h a,
        (e.alert_type = .temperature_high →
          e.threshold_value = s.temp_high_threshold ∧ e.current_value = t)
        ∧ (e.alert_type = .temperature_low →
          e.threshold_value = s.temp_low_threshold ∧ e.current_value = t)
        ∧ (e.alert_type = .humidity_high →
          e.threshold_value = s.humidity_high_threshold ∧ e.current_value = h)
        ∧ (e.alert_type = .humidity_low →
          e.threshold_value = s.humidity_low_threshold ∧ e.current_value = h)
        ∧ (e.alert_type = .air_quality_bad →
          e.threshold_value = s.air_quality_threshold ∧ e.current_value = a)) := by
  unfold check_alerts
  split_ifs with h1 h2 h3 h4 h5 h6 h7 h8 h9 h10 h11 h12 <;>
    simp_all [metricRank]

/-- Claim C2: for every in-range payload whose credential matches an
active device, ingest persists exactly one reading row for that device,
returns its id and the server-assigned timestamp, and a client-supplied
timestamp has no effect on the outcome. -/
theorem ingest_valid_persists_one_reading (db : DB) (p : SensorPayload) (dev : Device)
    (hvalid : fieldErrors db p = [])
    (hdev : getActiveDevice db p.api_key = some dev) :
    (receive_sensor_data db p).db.sensorData = db.sensorData ++
      [{ id := db.nextSensorId
         device := dev.id
         temperature := p.temperature
         humidity := p.humidity
         air_quality := p.air_quality
         uv_index := p.uv_index
         light_level := p.light_level
         timestamp := db.clock }]
    ∧ (receive_sensor_data db p).result =
        .created db.nextSensorId db.clock dev.name
    ∧ ∀ ts, receive_sensor_data db { p with client_timestamp := ts } =
        receive_sensor_data db p := by
  refine ⟨?_, ?_, ?_⟩
  · simp only [receive_sensor_data, hvalid, if_pos, hdev]
    split <;> simp [policyFor_snd_sensorData]
  · simp [receive_sensor_data, hvalid, hdev]
  · intro ts
    rfl

/-- Witness for C2: the sample database and in-range payload satisfy both
hypotheses and the conclusion at readings id 10, server clock 100. -/
theorem ingest_valid_persists_one_reading_witness :
    fieldErrors sampleDB okPayload = []
    ∧ getActiveDevice sampleDB okPayload.api_key = some sampleDevice
    ∧ ((receive_sensor_data sampleDB okPayload).db.sensorData =
        sampleDB.sensorData ++
        [{ id := sampleDB.nextSensorId
           device := sampleDevice.id
           temperature := okPayload.temperature
           humidity := okPayload.humidity
           air_quality := okPayload.air_quality
           uv_index := okPayload.uv_index
           light_level := okPayload.light_level
           timestamp := sampleDB.clock }]
      ∧ (receive_sensor_data sampleDB okPayload).result =
          .created sampleDB.nextSensorId sampleDB.clock sampleDevice.name
      ∧ ∀ ts, receive_sensor_data sampleDB { okPayload with client_timestamp := ts } =
          receive_sensor_data sampleDB okPayload) :=
  ⟨by decide, by decide,
    ingest_valid_persists_one_reading sampleDB okPayload sampleDevice
      (by decide) (by decide)⟩

/-- Claim C3: for every payload with a numeric field out of its declared
range, ingest persists nothing (no reading, no alert), returns a 400 whose
error list names the offending fields, and the range-error computation
flags exactly the out-of-range fields. -/
theorem ingest_out_of_range_rejected (db : DB) (p : SensorPayload)
    (hbad : rangeErrors p ≠ []) :
    (receive_sensor_data db p).db = db
    ∧ (receive_sensor_data db p).trace = []
    ∧ (receive_sensor_data db p).result = .validationError (fieldErrors db p)
    ∧ fieldErrors db p ≠ []
    ∧ rangeErrors p ⊆ fieldErrors db p
    ∧ ("temperature" ∈ rangeErrors p ↔ p.temperature < -50 ∨ p.temperature > 100)
    ∧ ("humidity" ∈ rangeErrors p ↔ p.humidity < 0 ∨ p.humidity > 100)
    ∧ ("air_quality" ∈ rangeErrors p ↔ p.air_quality < 0 ∨ p.air_quality > 1000)
    ∧ ("uv_index" ∈ rangeErrors p ↔ ∃ v, p.uv_index = some v ∧ (v < 0 ∨ v > 15))
    ∧ ("light_level" ∈ rangeErrors p ↔ ∃ v, p.light_level = some v ∧ v < 0) := by
  have hne : fieldErrors db p ≠ [] := by
    unfold fieldErrors
    intro hc
    exact hbad (List.append_eq_nil.mp hc).1
  refine ⟨?_, ?_, ?_, hne, ?_, ?_, ?_, ?_, ?_, ?_⟩
  · simp [receive_sensor_data, hne]
  · simp [receive_sensor_data, hne]
  · simp [receive_sensor_data, hne]
  · unfold fieldErrors; exact List.subset_append_left _ _
  · unfold rangeErrors
    rcases p.uv_index with - | v <;> rcases p.light_level with - | w <;>
      split_ifs <;> simp_all
  · unfold rangeErrors
    rcases p.uv_index with - | v <;> rcases p.light_level with - | w <;>
      split_ifs <;> simp_all
  · unfold rangeErrors
    rcases p.uv_index with - | v <;> rcases p.light_level with - | w <;>
      split_ifs <;> simp_all
  · unfold rangeErrors
    rcases p.uv_index with - | v <;> rcases p.light_level with - | w <;>
      split_ifs <;> simp_all
  · unfold rangeErrors
    rcases p.uv_index with - | v <;> rcases p.light_level with - | w <;>
      split_ifs <;> simp_all

/-- Witness for C3: a payload with temperature 150 is rejected, persists
nothing, and the error list names temperature. -/
theorem ingest_out_of_range_rejected_witness :
    rangeErrors badPayload ≠ []
    ∧ ((receive_sensor_data sampleDB badPayload).db = sampleDB
      ∧ (receive_sensor_data sampleDB badPayload).trace = []
      ∧ (receive_sensor_data sampleDB badPayload).result =
          .validationError (fieldErrors sampleDB badPayload)
      ∧ fieldErrors sampleDB badPayload ≠ []
      ∧ rangeErrors badPayload ⊆ fieldErrors sampleDB badPayload
      ∧ ("temperature" ∈ rangeErrors badPayload ↔
          badPayload.temperature < -50 ∨ badPayload.temperature > 100)
      ∧ ("humidity" ∈ rangeErrors badPayload ↔
          badPayload.humidity < 0 ∨ badPayload.humidity > 100)
      ∧ ("air_quality" ∈ rangeErrors badPayload ↔
          badPayload.air_quality < 0 ∨ badPayload.air_quality > 1000)
      ∧ ("uv_index" ∈ rangeErrors badPayload ↔
          ∃ v, badPayload.uv_index = some v ∧ (v < 0 ∨ v > 15))
      ∧ ("light_level" ∈ rangeErrors badPayload ↔
          ∃ v, badPayload.light_level = some v ∧ v < 0)) :=
  ⟨by decide, ingest_out_of_range_rejected sampleDB badPayload (by decide)⟩

/-- Claim C4: a credential matching no device and a credential of an
inactive device produce identical rejections: same response value, no
persistence, no events, the single error keyed on the credential field. -/
theorem ingest_auth_indistinguishable (db : DB) (p : SensorPayload) (k1 k2 : String)
    (h1 : getActiveDevice db k1 = none) (h2 : getActiveDevice db k2 = none) :
    receive_sensor_data db { p with api_key := k1 } =
      receive_sensor_data db { p with api_key := k2 }
    ∧ (receive_sensor_data db { p with api_key := k1 }).db = db
    ∧ (receive_sensor_data db { p with api_key := k1 }).trace = []
    ∧ (receive_sensor_data db { p with api_key := k1 }).result =
        .validationError (rangeErrors p ++ ["api_key"]) := by
  have hf1 : fieldErrors db { p with api_key := k1 } =
      rangeErrors p ++ ["api_key"] := by
    unfold fieldErrors
    simp [h1]
    rfl
  have hf2 : fieldErrors db { p with api_key := k2 } =
      rangeErrors p ++ ["api_key"] := by
    unfold fieldErrors
    simp [h2]
    rfl
  have hne : rangeErrors p ++ ["api_key"] ≠ [] := by simp
  refine ⟨?_, ?_, ?_, ?_⟩ <;>
    simp [receive_sensor_data, hf1, hf2, hne]

/-- Witness for C4: an unknown key and the key of the inactive device are
rejected with literally equal outcomes on the sample database. -/
theorem ingest_auth_indistinguishable_witness :
    getActiveDevice sampleDB "nope" = none
    ∧ getActiveDevice sampleDB "dead" = none
    ∧ (receive_sensor_data sampleDB { okPayload with api_key := "nope" } =
        receive_sensor_data sampleDB { okPayload with api_key := "dead" }
      ∧ (receive_sensor_data sampleDB { okPayload with api_key := "nope" }).db =
          sampleDB
      ∧ (receive_sensor_data sampleDB { okPayload with api_key := "nope" }).trace = []
      ∧ (receive_sensor_data sampleDB { okPayload with api_key := "nope" }).result =
          .validationError (rangeErrors okPayload ++ ["api_key"])) :=
  ⟨by decide, by decide,
    ingest_auth_indistinguishable sampleDB okPayload "nope" "dead"
      (by decide) (by decide)⟩

/-- Claim C5: in every ingest trace the reading persist precedes every
reading-event publication and every alert evaluation; a reading-event is
only published when the reading was persisted (with the same id), and
exactly one reading-event is published per persisted reading. -/
theorem reading_durable_before_eval_and_publish (db : DB) (p : SensorPayload) :
    (∀ n, ((receive_sensor_data db p).trace.take n).countP isPublishReading ≤
          ((receive_sensor_data db p).trace.take n).countP isPersistReading)
    ∧ (∀ n, 0 < ((receive_sensor_data db p).trace.take n).countP isEvalAlerts →
          0 < ((receive_sensor_data db p).trace.take n).countP isPersistReading)
    ∧ (receive_sensor_data db p).trace.countP isPublishReading =
        (receive_sensor_data db p).trace.countP isPersistReading
    ∧ (receive_sensor_data db p).trace.countP isPersistReading ≤ 1
    ∧ ∀ g rid, Op.publishReadingEvent g rid ∈ (receive_sensor_data db p).trace →
        Op.persistReading rid ∈ (receive_sensor_data db p).trace := by
  rcases receive_trace_cases db p with htr | ⟨rid, g, d, rest, htr, hrest⟩
  · rw [htr]; simp
  · rw [htr]
    have hpub : ∀ l, l ⊆ rest → l.countP isPublishReading = 0 := by
      intro l hl
      rw [List.countP_eq_zero]
      intro o ho
      rcases hrest o (hl ho) with ⟨k, rfl⟩
      simp [isPublishReading]
    have hper : ∀ l, l ⊆ rest → l.countP isPersistReading = 0 := by
      intro l hl
      rw [List.countP_eq_zero]
      intro o ho
      rcases hrest o (hl ho) with ⟨k, rfl⟩
      simp [isPersistReading]
    refine ⟨?_, ?_, ?_, ?_, ?_⟩
    · intro n
      rcases n with - | n
      · simp
      rcases n with - | n
      · simp [isPublishReading, isPersistReading]
      rcases n with - | n
      · simp [isPublishReading, isPersistReading]
      · simp only [List.take_succ_cons, List.countP_cons,
          isPublishReading, isPersistReading]
        have hp1 := hpub (rest.take n) (List.take_subset n rest)
        have hp2 := hper (rest.take n) (List.take_subset n rest)
        simp [hp1, hp2]
    · intro n _
      rcases n with - | n
      · simp_all [isEvalAlerts]
      · simp [List.take_succ_cons, List.countP_cons, isPersistReading]
    · have hp1 := hpub rest (List.Subset.refl rest)
      have hp2 := hper rest (List.Subset.refl rest)
      simp [List.countP_cons, isPublishReading, isPersistReading, hp1, hp2]
    · have hp2 := hper rest (List.Subset.refl rest)
      simp [List.countP_cons, isPersistReading, hp2]
    · intro g2 rid2 hmem
      simp only [List.mem_cons] at hmem
      rcases hmem with hc | hc | hc | hc
      · cases hc
      · cases hc
        exact List.mem_cons_self _ _
      · cases hc
      · rcases hrest _ hc with ⟨k, hk⟩
        cases hk

/-- Claim C6 (code bug): on the failing input (36, 85, 600 against the
default policy) the pipeline persists three alerts, yet its trace contains
zero alert-event publications, because `bulk_create` fires no `post_save`
and so never reaches `alert_created`; the dual delivery to the alert group
and the sensor group exists only in that bypassed receiver. -/
theorem pipeline_alerts_persisted_but_never_published :
    (receive_sensor_data sampleDB alertPayload).db.alerts.length = 3
    ∧ ((receive_sensor_data sampleDB alertPayload).db.alerts.map Alert.alert_type) =
        [.temperature_high, .humidity_high, .air_quality_bad]
    ∧ (receive_sensor_data sampleDB alertPayload).trace.countP isPublishAlert = 0
    ∧ alert_created 7 =
        [.publishAlertEvent "user_7_alerts", .publishAlertEvent "user_7_sensors"] := by
  decide

/-- Claim C7: on first need the policy store creates and returns the fixed
defaults (35, 5, 80, 20, 500), persists them, and every later lookup for
the same account returns that stored policy without creating another. -/
theorem policyFor_lazy_create_defaults (db : DB) (u : Nat)
    (h0 : lookupSettings db u = none) :
    (policyFor db u).1 = defaultUserSettings
    ∧ defaultUserSettings.temp_high_threshold = 35
    ∧ defaultUserSettings.temp_low_threshold = 5
    ∧ defaultUserSettings.humidity_high_threshold = 80
    ∧ defaultUserSettings.humidity_low_threshold = 20
    ∧ defaultUserSettings.air_quality_threshold = 500
    ∧ (policyFor db u).2.settings = db.settings ++ [(u, defaultUserSettings)]
    ∧ policyFor (policyFor db u).2 u = ((policyFor db u).1, (policyFor db u).2)
    ∧ ∀ db2, lookupSettings db2 u = some defaultUserSettings →
        policyFor db2 u = (defaultUserSettings, db2) := by
  have hlook : lookupSettings { db with
      settings := db.settings ++ [(u, defaultUserSettings)] } u =
      some defaultUserSettings := by
    unfold lookupSettings at h0 ⊢
    simp only [List.find?_append]
    rcases hfound : db.settings.find? (fun q => q.1 == u) with - | x
    · simp [hfound]
    · simp [hfound] at h0
  refine ⟨?_, rfl, rfl, rfl, rfl, rfl, ?_, ?_, ?_⟩
  · simp [policyFor, h0]
  · simp [policyFor, h0]
  · simp [policyFor, h0, hlook]
  · intro db2 hdb2
    simp [policyFor, hdb2]

/-- Witness for C7: account 7 has no policy in the sample database; the
first call creates and returns the defaults and the second call reuses
them. -/
theorem policyFor_lazy_create_defaults_witness :
    lookupSettings sampleDB 7 = none
    ∧ ((policyFor sampleDB 7).1 = defaultUserSettings
      ∧ defaultUserSettings.temp_high_threshold = 35
      ∧ defaultUserSettings.temp_low_threshold = 5
      ∧ defaultUserSettings.humidity_high_threshold = 80
      ∧ defaultUserSettings.humidity_low_threshold = 20
      ∧ defaultUserSettings.air_quality_threshold = 500
      ∧ (policyFor sampleDB 7).2.settings =
          sampleDB.settings ++ [(7, defaultUserSettings)]
      ∧ policyFor (policyFor sampleDB 7).2 7 =
          ((policyFor sampleDB 7).1, (policyFor sampleDB 7).2)
      ∧ ∀ db2, lookupSettings db2 7 = some defaultUserSettings →
          policyFor db2 7 = (defaultUserSettings, db2)) :=
  ⟨by decide, policyFor_lazy_create_defaults sampleDB 7 (by decide)⟩

/-- Claim C8 (code bug): under the interleaving where both racing ingests
run the settings `get` before either `create`, the unique constraint keeps
the row count at one, but the second `create` raises an uncaught
IntegrityError, so one ingest fails — the check-then-act code has no
atomic insert-if-absent; a serialized schedule, by contrast, lets both
finish cleanly. -/
theorem policy_lazy_create_race_not_atomic :
    (raceRun [true, false, true, false]
        { store := none, p1 := .start, p2 := .start }).store =
      some defaultUserSettings
    ∧ (raceRun [true, false, true, false]
        { store := none, p1 := .start, p2 := .start }).p1 = .finished false
    ∧ (raceRun [true, false, true, false]
        { store := none, p1 := .start, p2 := .start }).p2 = .finished true
    ∧ (raceRun [true, true, false, false]
        { store := none, p1 := .start, p2 := .start }).p1 = .finished false
    ∧ (raceRun [true, true, false, false]
        { store := none, p1 := .start, p2 := .start }).p2 = .finished false := by
  decide

/-- Claim C9: a reading whose temperature, humidity and air quality all
lie within the effective policy bounds makes the evaluator emit zero
events, and the pipeline persists no alert row and performs no bulk alert
insert. -/
theorem in_bounds_reading_creates_no_alerts (db : DB) (p : SensorPayload) (dev : Device)
    (hvalid : fieldErrors db p = [])
    (hdev : getActiveDevice db p.api_key = some dev)
    (ht1 : ¬ p.temperature > (effectiveSettings db dev.owner).temp_high_threshold)
    (ht2 : ¬ p.temperature < (effectiveSettings db dev.owner).temp_low_threshold)
    (hh1 : ¬ p.humidity > (effectiveSettings db dev.owner).humidity_high_threshold)
    (hh2 : ¬ p.humidity < (effectiveSettings db dev.owner).humidity_low_threshold)
    (ha1 : ¬ p.air_quality > (effectiveSettings db dev.owner).air_quality_threshold) :
    check_alerts (effectiveSettings db dev.owner) dev.id db.clock
      p.temperature p.humidity p.air_quality = []
    ∧ (receive_sensor_data db p).db.alerts = db.alerts
    ∧ (receive_sensor_data db p).trace.countP isPersistAlerts = 0 := by
  have hca : ∀ m, check_alerts (effectiveSettings db dev.owner) dev.id m
      p.temperature p.humidity p.air_quality = [] := by
    intro m
    simp [check_alerts, ht1, ht2, hh1, hh2, ha1]
  refine ⟨hca db.clock, ?_, ?_⟩ <;>
    simp [receive_sensor_data, hvalid, hdev, policyFor_fst,
      effectiveSettings_insertReading, hca, policyFor_snd_alerts,
      sensor_data_created, isPersistAlerts]

/-- Witness for C9: the reading (20, 50, 100) against the default policy
satisfies every bound hypothesis and yields no alert. -/
theorem in_bounds_reading_creates_no_alerts_witness :
    fieldErrors sampleDB okPayload = []
    ∧ getActiveDevice sampleDB okPayload.api_key = some sampleDevice
    ∧ ¬ okPayload.temperature >
        (effectiveSettings sampleDB sampleDevice.owner).temp_high_threshold
    ∧ ¬ okPayload.temperature <
        (effectiveSettings sampleDB sampleDevice.owner).temp_low_threshold
    ∧ ¬ okPayload.humidity >
        (effectiveSettings sampleDB sampleDevice.owner).humidity_high_threshold
    ∧ ¬ okPayload.humidity <
        (effectiveSettings sampleDB sampleDevice.owner).humidity_low_threshold
    ∧ ¬ okPayload.air_quality >
        (effectiveSettings sampleDB sampleDevice.owner).air_quality_threshold
    ∧ (check_alerts (effectiveSettings sampleDB sampleDevice.owner)
        sampleDevice.id sampleDB.clock
        okPayload.temperature okPayload.humidity okPayload.air_quality = []
      ∧ (receive_sensor_data sampleDB okPayload).db.alerts = sampleDB.alerts
      ∧ (receive_sensor_data sampleDB okPayload).trace.countP isPersistAlerts = 0) :=
  ⟨by decide, by decide, by decide, by decide, by decide, by decide, by decide,
    in_bounds_reading_creates_no_alerts sampleDB okPayload sampleDevice
      (by decide) (by decide) (by decide) (by decide) (by decide) (by decide)
      (by decide)⟩

/-- Claim C10: resolving an alert sets its status to resolved and its
resolution time to the current server time, and changes no other field. -/
theorem resolve_sets_status_and_nothing_else (a : Alert) (now : Nat) :
    (resolve a now).status = .resolved
    ∧ (resolve a now).resolved_at = some now
    ∧ (resolve a now).device = a.device
    ∧ (resolve a now).alert_type = a.alert_type
    ∧ (resolve a now).threshold_value = a.threshold_value
    ∧ (resolve a now).current_value = a.current_value
    ∧ (resolve a now).message = a.message
    ∧ (resolve a now).created_at = a.created_at := by
  simp [resolve]

end Solar
